import Mathlib

/-!
# Verification of the kubectl-tail log-tailing tool

Shallow embedding of the core of `kubectl-tail` (a Kubernetes log tailer
written in Rust) together with proofs about the behaviour of its
Tail Supervisor, Follow Tasks, Resource Resolver, Event Bus, stdout
presenter and TUI log buffer.

Each definition is translated from the Rust source file and function it
names in its doc comment.  External collaborators (the Kubernetes API,
the regex engine, the hash function behind colour selection) are
modelled as explicit parameters or as small transition systems, exactly
at the granularity the program uses them.
-/

namespace KubectlTail

/-! ## Data model (src/ui/app.rs `PodKey`, src/main.rs `LogMessage` usage) -/

/-- Structure `PodKey` from src/ui/app.rs: the (cluster, namespace, pod, container)
identity used as the key of the Supervisor's handle map. -/
structure PodKey where
  cluster : String
  namespace_ : String
  pod_name : String
  container_name : String
  deriving DecidableEq, Repr

/-- The result of the pod GET performed by `spawn_tail_tasks_for_pod`
when no container filter is given: an error, or the pod with
`spec.containers` names (absent when `pod.spec` is `None`). -/
inductive PodFetch where
  | err (msg : String)
  | ok (spec_containers : Option (List String))
  deriving DecidableEq, Repr

/-- Function `spawn_tail_tasks_for_pod` (src/kubernetes.rs:112-155), returning
the container names a tail task is spawned for.  With a `--container`
filter, exactly one task is spawned for the named container, with no
check against the pod's spec; without a filter, one per
`spec.containers` entry (none when the GET fails or the spec is
absent). -/
def spawn_tail_tasks_for_pod (container : Option String) (fetch : PodFetch) :
    List String :=
  match container with
  | some c => [c]
  | none =>
    match fetch with
    | .ok (some cs) => cs
    | .ok none => []
    | .err _ => []

/-- The pod data `handle_pod_event` (src/main.rs) reads from a watch event:
the pod name, `status.phase` (optional) and the container names of
`spec.containers` (absent when `pod.spec` is `None`), together with the
outcome (`fetch`) that the pod GET inside `spawn_tail_tasks_for_pod`
(src/kubernetes.rs:127-152) would have at the moment the event is
handled — that GET is performed only when no `--container` filter is
given, and its failure makes the spawn return no handles. -/
structure PodApply where
  name : String
  phase : Option String
  containers : Option (List String)
  fetch : PodFetch
  deriving DecidableEq, Repr

/-- A normalized pod-presence event as produced by `watch_pods`
(src/main.rs): `Event::Apply/InitApply` carries the pod, `Event::Delete`
carries the pod (only its name is used). -/
inductive PodEvent where
  | apply (p : PodApply)
  | delete (name : String)
  deriving DecidableEq, Repr

/-! ## Tail Supervisor (src/main.rs `handle_pod_event`, `stop_tailing_pod`)

The Supervisor's shared state is the map `PodKey -> Vec<AbortHandle>`.
Only the key set matters for which Follow Tasks are active, so the map
is modelled as the list of keys currently holding a live handle. -/

/-- Does a key belong to the pod `(cluster, namespace, pod)`?  This is the
filter used by both `handle_pod_event` (the `was_tracking` scan) and
`stop_tailing_pod` in src/main.rs. -/
def podMatches (cluster ns pod : String) (k : PodKey) : Bool :=
  k.cluster == cluster && k.namespace_ == ns && k.pod_name == pod

/-- Function `stop_tailing_pod` (src/main.rs:699-723): remove (and abort) every
handle whose key matches the pod of `base_key`. -/
def stop_tailing_pod (cluster ns pod : String) (m : List PodKey) : List PodKey :=
  m.filter (fun k => !(podMatches cluster ns pod k))

/-- The container keys recorded by `handle_pod_event` when it starts
tailing a pod.  `spawn_tail_tasks_for_pod` (src/kubernetes.rs:112-155)
returns one handle when `--container` is given, and otherwise one
handle per container of the pod it re-fetches — and **no** handles when
that GET fails or the fetched pod has no spec.  `handle_pod_event` then
zips the handles with the watch event's `spec.containers`
(src/main.rs:657-669), so the recorded keys are the first
`min(#handles, #event containers)` event container names (with a
filter, the first event container's name, whatever the filter says).
Nothing is recorded when the event pod's `spec` is absent. -/
def startedKeys (cluster ns : String) (filter : Option String) (p : PodApply) :
    List PodKey :=
  match p.containers with
  | none => []
  | some cs =>
    let numHandles := (spawn_tail_tasks_for_pod filter p.fetch).length
    (cs.take numHandles).map (fun c => ⟨cluster, ns, p.name, c⟩)

/-- Function `handle_pod_event` (src/main.rs:607-697): compute the phase (default
"Unknown"), check whether any container of the pod is already tracked,
start tailing when untracked and the phase is Running or Pending, and
stop tailing when tracked and the phase is not Running. -/
def handle_pod_event (cluster ns : String) (filter : Option String)
    (m : List PodKey) (p : PodApply) : List PodKey :=
  let phase := p.phase.getD "Unknown"
  let isRunning := phase == "Running"
  let wasTracking := m.any (podMatches cluster ns p.name)
  if !wasTracking && (isRunning || phase == "Pending") then
    m ++ startedKeys cluster ns filter p
  else if wasTracking && !isRunning then
    stop_tailing_pod cluster ns p.name m
  else
    m

/-- One step of the watch loop `watch_pods` (src/main.rs:551-605):
`Apply`/`InitApply` events go to `handle_pod_event`, `Delete` events go
to `stop_tailing_pod`. -/
def superStep (cluster ns : String) (filter : Option String)
    (m : List PodKey) : PodEvent → List PodKey
  | .apply p => handle_pod_event cluster ns filter m p
  | .delete n => stop_tailing_pod cluster ns n m

/-- The Supervisor's handle-map key set after a finite sequence of pod
presence events, starting from the empty map created in
`run_stdout_mode`/`run_tui_mode` (src/main.rs). -/
def superRun (cluster ns : String) (filter : Option String)
    (events : List PodEvent) : List PodKey :=
  events.foldl (superStep cluster ns filter) []

/-- Projection of the handle map onto a single pod. -/
def projPod (cluster ns pod : String) (m : List PodKey) : List PodKey :=
  m.filter (podMatches cluster ns pod)

/-- The per-pod tracking automaton actually implemented by
`handle_pod_event`: start tracking (recording `startedKeys`) when
untracked and the phase is Running or Pending; cancel every task of the
pod when tracked and the phase is **not Running** (so a Pending phase on
a tracked pod also cancels), or when the pod is deleted. -/
def podAutoStep (cluster ns : String) (filter : Option String) (pod : String)
    (st : List PodKey) : PodEvent → List PodKey
  | .apply p =>
    if p.name == pod then
      let phase := p.phase.getD "Unknown"
      let isRunning := phase == "Running"
      if st.isEmpty && (isRunning || phase == "Pending") then
        startedKeys cluster ns filter p
      else if !st.isEmpty && !isRunning then
        []
      else
        st
    else st
  | .delete n => if n == pod then [] else st

/-- Run of the per-pod tracking automaton. -/
def podAutoRun (cluster ns : String) (filter : Option String) (pod : String)
    (events : List PodEvent) : List PodKey :=
  events.foldl (podAutoStep cluster ns filter pod) []

/-- Modelled from the claim's words: the phase of the pod's last observed
presence event (`none` when the pod disappeared or was never seen). -/
def lastObservedPhase (events : List PodEvent) (pod : String) : Option String :=
  events.foldl (fun acc e =>
    match e with
    | .apply p => if p.name == pod then some (p.phase.getD "Unknown") else acc
    | .delete n => if n == pod then none else acc) none

/-! ## Follow Task (src/kubernetes.rs `spawn_tail_task`)

The task loop alternates between opening a follow-log stream and reading
lines from it.  The interaction with the Kubernetes server is modelled
as a script: one entry per connection attempt, either an open error or
an opened stream together with the sequence of line-read results the
server delivers on it.  The channel to the presenter is assumed open
(`tx.send` succeeding), matching a live presenter. -/

/-- Type `ConnectionState` from src/types.rs (the `Disconnected` variant is
never constructed by `spawn_tail_task` and is omitted). -/
inductive ConnState where
  | connected
  | reconnecting (attempt : Nat)
  | failed (reason : String)
  deriving DecidableEq, Repr

/-- The `LogEvent`s emitted by `spawn_tail_task` (src/types.rs):
`Log` carries the line, `Gap` carries a wall-clock downtime (abstracted
away here) and `StatusChange` carries the state transition. -/
inductive TailEvent where
  | log (pod container line : String)
  | gap (pod container : String)
  | statusChange (pod container : String) (old new_ : ConnState)
  deriving DecidableEq, Repr

/-- The result of `api.log_stream(...)` failing: a typed API error with
an HTTP status code (`kube::Error::Api`) or any other error. -/
inductive StreamOpenError where
  | api (code : Nat)
  | other (msg : String)
  deriving DecidableEq, Repr

/-- One `line_stream.next()` result inside the read loop. -/
inductive ReadResult where
  | ok (line : String)
  | err (msg : String)
  deriving DecidableEq, Repr

/-- One iteration of the `loop` in `spawn_tail_task`: the stream either
fails to open or opens and delivers `reads` until it ends. -/
inductive ConnAttempt where
  | openErr (e : StreamOpenError)
  | opened (reads : List ReadResult)
  deriving DecidableEq, Repr

/-- The lines actually read by the `while let` loop: every `Ok` line up
to (and excluding) the first read error, which `break`s the loop. -/
def okPrefixLines : List ReadResult → List String
  | [] => []
  | .ok l :: rest => l :: okPrefixLines rest
  | .err _ :: _ => []

/-- Mutable state of the `spawn_tail_task` loop: `is_first_attempt`,
`reconnection_attempt` and whether `disconnection_time` is set. -/
structure TailLoopState where
  firstAttempt : Bool
  attempt : Nat
  disconnected : Bool
  deriving DecidableEq, Repr

/-- The `tail_lines` parameter of the follow request
(src/kubernetes.rs:181): the user's `--tail` value on the first attempt,
`None` on every reconnect. -/
def requestTailLines (st : TailLoopState) (tail : Option Int) : Option Int :=
  if st.firstAttempt then tail else none

/-- One iteration of the `loop` in `spawn_tail_task`
(src/kubernetes.rs:179-298), returning the events sent on the channel,
the successor state, and whether the task `return`ed (which happens only
on a 404 API error when opening the stream). -/
def tailStep (pod container : String) (st : TailLoopState) :
    ConnAttempt → List TailEvent × TailLoopState × Bool
  | .opened reads =>
    let att := st.attempt + 1
    let connectEvs :=
      if att > 1 then
        (if st.disconnected then [TailEvent.gap pod container] else [])
          ++ [TailEvent.statusChange pod container
                (.reconnecting (att - 1)) .connected]
      else []
    let logEvs := (okPrefixLines reads).map (TailEvent.log pod container)
    (connectEvs ++ logEvs
        ++ [TailEvent.statusChange pod container .connected (.reconnecting 1)],
      ⟨false, 0, true⟩, false)
  | .openErr e =>
    let att := st.attempt + 1
    match e with
    | .api code =>
      if code = 404 then
        ([TailEvent.statusChange pod container .connected
            (.failed "Pod not found")],
          ⟨false, att, true⟩, true)
      else
        ([TailEvent.statusChange pod container .connected (.reconnecting att)],
          ⟨false, att, true⟩, false)
    | .other _ =>
      ([TailEvent.statusChange pod container .connected (.reconnecting att)],
        ⟨false, att, true⟩, false)

/-- The task loop run over a connection script, returning the emitted
events, the final loop state and whether the task returned early: stop
when a step says the task returned, otherwise sleep 5 s (not modelled)
and continue with the next attempt. -/
def tailRun (pod container : String) :
    TailLoopState → List ConnAttempt → List TailEvent × TailLoopState × Bool
  | st, [] => ([], st, false)
  | st, a :: rest =>
    let r := tailStep pod container st a
    if r.2.2 then (r.1, r.2.1, true)
    else
      let rr := tailRun pod container r.2.1 rest
      (r.1 ++ rr.1, rr.2.1, rr.2.2)

/-- A whole Follow Task run, starting from the initial loop state
(`is_first_attempt = true`, `reconnection_attempt = 0`,
`disconnection_time = None`). -/
def tailTaskRun (pod container : String) (script : List ConnAttempt) :
    List TailEvent × TailLoopState × Bool :=
  tailRun pod container ⟨true, 0, false⟩ script

/-- The log lines delivered downstream by a run (payloads of `Log`
events, in order). -/
def emittedLines (evs : List TailEvent) : List String :=
  evs.filterMap fun e =>
    match e with
    | .log _ _ l => some l
    | _ => none

/-- Is a connection attempt the terminal 404 open error? -/
def is404 : ConnAttempt → Bool
  | .openErr (.api code) => code == 404
  | _ => false

/-- The lines a connection attempt delivers to the read loop (none when
the stream fails to open). -/
def connOkLines : ConnAttempt → List String
  | .opened rs => okPrefixLines rs
  | .openErr _ => []

/-- Modelled from the spec, §4.4 "Duplicate suppression": push a line
into the bounded FIFO of the last `k` emitted raw line strings. -/
def pushWindow (k : Nat) (w : List String) (l : String) : List String :=
  let w2 := w ++ [l]
  w2.drop (w2.length - k)

/-- Modelled from the spec, §4.4 "Duplicate suppression": process the
per-connection line batches, dropping from every post-reconnect batch
the lines string-equal to a line in the FIFO of the last `k` emitted
lines. -/
def specDedupRun (k : Nat) : Bool → List String → List (List String) → List String
  | _, _, [] => []
  | isReconnect, w, c :: cs =>
    let kept := if isReconnect then c.filter (fun l => !(w.contains l)) else c
    let w2 := kept.foldl (pushWindow k) w
    kept ++ specDedupRun k true w2 cs

/-- Modelled from the spec, §4.4: the downstream lines the specified
dedup behaviour (window of the default K = 100) would produce for the
given per-connection batches. -/
def specDedupEmit (conns : List (List String)) : List String :=
  specDedupRun 100 false [] conns

/-! ## Resource Resolver
(src/kubernetes.rs `get_selector_from_resource`,
src/utils.rs `selector_to_labels_string`, `parse_resource_spec`,
src/main.rs `parse_resources_and_selectors`) -/

/-- Type `LabelSelectorRequirement` from k8s_openapi: a set-based requirement
with a key, an operator string and optional values. -/
structure LabelSelectorRequirement where
  key : String
  operator : String
  values : Option (List String)
  deriving DecidableEq, Repr

/-- Type `LabelSelector` from k8s_openapi: optional equality map (a `BTreeMap`,
modelled as its sorted association list) and optional requirements. -/
structure LabelSelector where
  match_labels : Option (List (String × String))
  match_expressions : Option (List LabelSelectorRequirement)
  deriving DecidableEq, Repr

/-- A typed expression of kube's `Selector` (the target of
`Selector::try_from(LabelSelector)` used by `selector_to_labels_string`). -/
inductive SelExpr where
  | eq (key value : String)
  | in_ (key : String) (values : List String)
  | notIn (key : String) (values : List String)
  | exists_ (key : String)
  | doesNotExist (key : String)
  deriving DecidableEq, Repr

/-- kube's conversion of one `LabelSelectorRequirement` into a typed
expression; unknown operators (and In/NotIn without values) make the
whole conversion fail, which `selector_to_labels_string` turns into
`None` via `.ok()`. -/
def reqToExpr (r : LabelSelectorRequirement) : Option SelExpr :=
  match r.operator with
  | "In" => r.values.map (SelExpr.in_ r.key)
  | "NotIn" => r.values.map (SelExpr.notIn r.key)
  | "Exists" => some (SelExpr.exists_ r.key)
  | "DoesNotExist" => some (SelExpr.doesNotExist r.key)
  | _ => none

/-- kube's `Selector::try_from(LabelSelector)`: every `match_labels`
pair becomes an equality expression, every requirement is converted by
`reqToExpr`. -/
def selectorTryFrom (s : LabelSelector) : Option (List SelExpr) :=
  ((s.match_expressions.getD []).mapM reqToExpr).map
    (fun es => (s.match_labels.getD []).map (fun kv => SelExpr.eq kv.1 kv.2) ++ es)

/-- kube's `Display` for one selector expression. -/
def selExprString : SelExpr → String
  | .eq k v => k ++ "=" ++ v
  | .in_ k vs => k ++ " in (" ++ String.intercalate "," vs ++ ")"
  | .notIn k vs => k ++ " notin (" ++ String.intercalate "," vs ++ ")"
  | .exists_ k => k
  | .doesNotExist k => "!" ++ k

/-- kube's `Display` for a selector: comma-separated expressions. -/
def selectorString (es : List SelExpr) : String :=
  String.intercalate "," (es.map selExprString)

/-- Function `selector_to_labels_string` (src/utils.rs:11-16):
`Selector::try_from(..).ok().filter(|s| !s.selects_all()).map(to_string)`,
where `selects_all` holds exactly for the empty expression list. -/
def selector_to_labels_string (s : LabelSelector) : Option String :=
  match selectorTryFrom s with
  | none => none
  | some es => if es.isEmpty then none else some (selectorString es)

/-- Outcome of the Kubernetes GET for a controller resource: an API error
(e.g. 404), or the resource with its `spec.selector` (which is absent
only for `Job`, whose selector field is optional). -/
inductive GetOutcome where
  | apiErr (msg : String)
  | found (selector : Option LabelSelector)
  deriving DecidableEq, Repr

/-- The controller kinds `get_selector_from_resource` dispatches on
(src/kubernetes.rs:76-106). -/
def knownControllerKinds : List String :=
  ["deployment", "statefulset", "daemonset", "job", "replicaset"]

/-- Function `get_selector_from_resource_generic` (src/kubernetes.rs:46-68):
propagate the GET error, error with "No selector" when the field is
absent, otherwise return the selector. -/
def get_selector_from_resource_generic (outcome : GetOutcome) :
    Except String (Option LabelSelector) :=
  match outcome with
  | .apiErr msg => .error msg
  | .found none => .error "No selector"
  | .found (some sel) => .ok (some sel)

/-- Function `get_selector_from_resource` (src/kubernetes.rs:70-110).  `env` is
the cluster state consulted by the controller GET, as a function from
(kind, name, namespace) to the GET outcome.  `"pod"` returns
`Ok(None)`; any unknown kind returns the
`"Unsupported resource type"` error. -/
def get_selector_from_resource (env : String → String → String → GetOutcome)
    (kind name ns : String) : Except String (Option LabelSelector) :=
  if knownControllerKinds.contains kind then
    get_selector_from_resource_generic (env kind name ns)
  else if kind == "pod" then
    .ok none
  else
    .error ("Unsupported resource type: " ++ kind)

/-- Structure `ResourceSpec` as consumed by src/main.rs and produced by
`parse_resource_spec` (src/utils.rs). -/
structure ResourceSpec where
  context : Option String
  namespace_ : Option String
  kind : Option String
  name : String
  deriving DecidableEq, Repr

/-- Function `parse_resource_spec` (src/utils.rs:71-116): split on `/` into
1-4 parts. -/
def parse_resource_spec (spec : String) : Except String ResourceSpec :=
  match spec.splitOn "/" with
  | [n] => .ok ⟨none, none, none, n⟩
  | [k, n] => .ok ⟨none, none, some k, n⟩
  | [ns, k, n] => .ok ⟨none, some ns, some k, n⟩
  | [c, ns, k, n] => .ok ⟨some c, some ns, some k, n⟩
  | _ => .error ("Invalid resource spec '" ++ spec
      ++ "': expected 1-4 parts separated by '/'")

/-- Operation `HashSet::insert` on the `explicit_pods` set, keeping first-insertion
order for determinism of the model. -/
def insertPod (pods : List String) (n : String) : List String :=
  if pods.contains n then pods else pods ++ [n]

/-- The body of the per-spec loop of `parse_resources_and_selectors`
(src/main.rs:264-294): on `Ok(Some(selector))` push its serialization
if non-empty; on `Ok(None)` record an explicit pod when the kind is
`pod`; on `Err` log a warning and continue — the error is swallowed. -/
def processOne (name kind : String)
    (res : Except String (Option LabelSelector))
    (acc : List String × List String) : List String × List String :=
  match res with
  | .ok (some sel) =>
    match selector_to_labels_string sel with
    | some s => (acc.1 ++ [s], acc.2)
    | none => acc
  | .ok none => if kind == "pod" then (acc.1, insertPod acc.2 name) else acc
  | .error _ => acc

/-- The per-(context, namespace) group loop of
`parse_resources_and_selectors` (src/main.rs:264-294), producing the
`label_selectors` and `explicit_pods` of the group's `WatchConfig`.
It is total: no resource spec, whatever its kind, can make it fail. -/
def processGroup (env : String → String → String → GetOutcome)
    (ns : String) (specs : List ResourceSpec) : List String × List String :=
  specs.foldl (fun acc spec =>
    let kind := spec.kind.getD "pod"
    processOne spec.name kind
      (get_selector_from_resource env kind spec.name ns) acc) ([], [])

/-! ## Log messages and the Event Bus
(src/main.rs `LogMessage` as consumed by `run_stdout_mode`;
`mpsc::channel::<LogMessage>(cli.buffer_size)` at src/main.rs:129) -/

/-- The log message flowing from Follow Tasks to the presenter, with the
fields `run_stdout_mode` reads (src/main.rs:336-351). -/
structure LogMsg where
  cluster : String
  namespace_ : String
  pod_name : String
  container_name : String
  line : String
  deriving DecidableEq, Repr

/-- State of the bounded mpsc channel: the pending FIFO, the messages
already received by the consumer, and every message a send has
accepted. -/
structure BusState where
  pending : List LogMsg
  received : List LogMsg
  accepted : List LogMsg
  deriving DecidableEq, Repr

/-- The two operations on the channel. -/
inductive BusOp where
  | send (m : LogMsg)
  | recv
  deriving DecidableEq, Repr

/-- Semantics of tokio's bounded mpsc channel as created by `main`
(src/main.rs:129) and used by `spawn_tail_task` (`tx.send(..).await`)
and the presenter (`log_rx.recv().await`): a send succeeds only while
fewer than `cap` messages are pending (otherwise the producer blocks —
modelled as `none`); a recv succeeds only on a non-empty queue.  No
operation ever discards a message. -/
def busTry (cap : Nat) (st : BusState) : BusOp → Option BusState
  | .send m =>
    if st.pending.length < cap then
      some { st with pending := st.pending ++ [m], accepted := st.accepted ++ [m] }
    else
      none
  | .recv =>
    match st.pending with
    | [] => none
    | x :: xs =>
      some { pending := xs, received := st.received ++ [x],
             accepted := st.accepted }

/-- A run of the channel under a schedule of attempted operations; a
blocked operation leaves the state unchanged (the producer or consumer
waits and the scheduler moves on). -/
def busRun (cap : Nat) (st : BusState) : List BusOp → BusState
  | [] => st
  | op :: ops => busRun cap ((busTry cap st op).getD st) ops

/-- The freshly created channel. -/
def busInit : BusState := ⟨[], [], []⟩

/-- The clap default of `--buffer-size` (src/cli.rs:43-44). -/
def cliBufferSizeDefault : Nat := 10000

/-- The channel-state invariant: never more than `cap` pending, and
every accepted message is either already received or still pending, in
FIFO order. -/
def busInv (cap : Nat) (st : BusState) : Prop :=
  st.pending.length ≤ cap ∧ st.received ++ st.pending = st.accepted

/-! ## Stdout presenter
(src/main.rs `run_stdout_mode`, src/utils.rs `get_crossterm_color`) -/

/-- The crossterm colours of the palette in `get_crossterm_color`
(src/utils.rs:44-59). -/
inductive CColor where
  | red | green | blue | yellow | magenta | cyan | white | grey
  | ansiValue (v : Nat)
  deriving DecidableEq, Repr

/-- The 14-colour palette of `get_crossterm_color`, in source order. -/
def crosstermColors : List CColor :=
  [.red, .green, .blue, .yellow, .magenta, .cyan, .white, .grey,
   .ansiValue 91, .ansiValue 92, .ansiValue 94, .ansiValue 93,
   .ansiValue 95, .ansiValue 96]

/-- Function `get_crossterm_color` (src/utils.rs:43-64): hash the string with a
fresh `DefaultHasher` (a fixed deterministic function, modelled by the
parameter `hash`), truncate `finish()` to `u32`, and index the palette
modulo its length. -/
def get_crossterm_color (hash : String → Nat) (s : String) : CColor :=
  crosstermColors.getD ((hash s % 2 ^ 32) % crosstermColors.length) CColor.red

/-- The colour key of a message: `format!("{}/{}", msg.cluster,
msg.pod_name)` (src/main.rs:344). -/
def colorKey (m : LogMsg) : String := m.cluster ++ "/" ++ m.pod_name

/-- The colour applied to a message's bracketed header. -/
def messageColor (hash : String → Nat) (m : LogMsg) : CColor :=
  get_crossterm_color hash (colorKey m)

/-- The bracketed header of a printed line:
`format!("[{}.{}/{}/{}]", cluster, namespace, pod, container)`
(src/main.rs:346-349). -/
def headerText (m : LogMsg) : String :=
  "[" ++ m.cluster ++ "." ++ m.namespace_ ++ "/" ++ m.pod_name ++ "/"
    ++ m.container_name ++ "]"

/-- The full printed text: `println!("{} {}", prefix, msg.line)`. -/
def formatMessage (m : LogMsg) : String :=
  headerText m ++ " " ++ m.line

/-- Observable outcome of `run_stdout_mode` (src/main.rs:315-353):
whether the process exited with code 1, the diagnostics emitted to the
logging sink, and the printed lines (text plus the colour styling the
header). -/
structure StdoutRun where
  exitCode : Option Nat
  diagnostics : List String
  printed : List (String × CColor)
  deriving DecidableEq, Repr

/-- Function `run_stdout_mode` (src/main.rs:315-353) restricted to its observable
output on a stream of delivered messages.  The regex engine is the
external collaborator `compile`: compiling the `--grep` pattern either
fails (the code logs `"Invalid regex pattern '{pattern}': {e}"` and
calls `std::process::exit(1)` before printing anything) or yields a
matcher used to drop non-matching lines before printing. -/
def run_stdout_mode (hash : String → Nat)
    (compile : String → Except String (String → Bool))
    (grep : Option String) (msgs : List LogMsg) : StdoutRun :=
  match grep with
  | none =>
    ⟨none, [], msgs.map (fun m => (formatMessage m, messageColor hash m))⟩
  | some pat =>
    match compile pat with
    | .error e =>
      ⟨some 1, ["Invalid regex pattern '" ++ pat ++ "': " ++ e], []⟩
    | .ok isMatch =>
      ⟨none, [],
        (msgs.filter (fun m => isMatch m.line)).map
          (fun m => (formatMessage m, messageColor hash m))⟩

/-! ## TUI application state (src/ui/app.rs `App::add_log`)

Only the fields `add_log` touches are modelled; the others do not
interact with it. -/

/-- The `App` fields read or written by `add_log`
(src/ui/app.rs:46-134). -/
structure App where
  log_buffer : List LogMsg
  max_buffer_size : Nat
  scroll_offset : Nat
  auto_scroll : Bool
  paused : Bool
  deriving DecidableEq, Repr

/-- The eviction loop of `add_log`:
`while log_buffer.len() >= max_buffer_size { pop_front();
if scroll_offset > 0 { scroll_offset -= 1 } }`.  `pop_front` on an
empty `VecDeque` is a no-op, so with `max_buffer_size = 0` the Rust
loop never terminates; the fuel makes that observable as `none`
(the loop either finishes within `initial length + 1` iterations or
loops forever). -/
def evictLoop (max : Nat) : Nat → List LogMsg → Nat → Option (List LogMsg × Nat)
  | 0, _, _ => none
  | fuel + 1, buf, scroll =>
    if max ≤ buf.length then
      evictLoop max fuel buf.tail (if scroll > 0 then scroll - 1 else scroll)
    else
      some (buf, scroll)

/-- Method `App::add_log` (src/ui/app.rs:116-134): when paused, discard the
message outright; otherwise evict from the front until below
`max_buffer_size`, push the message, and snap the scroll offset to the
bottom when auto-scroll is on.  `none` models the Rust loop never
returning. -/
def add_log (app : App) (msg : LogMsg) : Option App :=
  if app.paused then some app
  else
    match evictLoop app.max_buffer_size (app.log_buffer.length + 1)
        app.log_buffer app.scroll_offset with
    | none => none
    | some (buf, scroll) =>
      let buf2 := buf ++ [msg]
      let scroll2 := if app.auto_scroll then buf2.length - 1 else scroll
      some { app with log_buffer := buf2, scroll_offset := scroll2 }

/-! ### List helper lemmas -/

theorem any_eq_not_filter_isEmpty {α : Type} (f : α → Bool) :
    ∀ l : List α, l.any f = !(l.filter f).isEmpty := by
  intro l
  induction l with
  | nil => rfl
  | cons x xs ih =>
    cases h : f x <;> simp [List.any_cons, List.filter_cons, h, ih]

theorem filter_all_of_all {α : Type} {P g : α → Bool} :
    ∀ l : List α, l.all P = true → (l.filter g).all P = true := by
  intro l h
  induction l with
  | nil => rfl
  | cons x xs ih =>
    simp only [List.all_cons, Bool.and_eq_true] at h
    cases hg : g x <;> simp [List.filter_cons, hg, ih h.2, h.1]

theorem filter_not_filter_self {α : Type} (g : α → Bool) :
    ∀ l : List α, (l.filter (fun x => !g x)).filter g = [] := by
  intro l
  induction l with
  | nil => rfl
  | cons x xs ih =>
    cases hg : g x <;> simp [List.filter_cons, hg, ih]

theorem filter_not_filter_of_disjoint {α : Type} {f g : α → Bool}
    (h : ∀ x, f x = true → g x = false) :
    ∀ l : List α, (l.filter (fun x => !g x)).filter f = l.filter f := by
  intro l
  induction l with
  | nil => rfl
  | cons x xs ih =>
    cases hg : g x
    · simp [List.filter_cons, hg, ih]
    · have hf : f x = false := by
        cases hf : f x
        · rfl
        · rw [h x hf] at hg; exact hg.symm ▸ rfl
      simp [List.filter_cons, hg, hf, ih]

/-! ### Supervisor: projection lemmas for C1 -/

theorem startedKeys_fields (cluster ns : String) (f : Option String)
    (p : PodApply) :
    ∀ k ∈ startedKeys cluster ns f p,
      k.cluster = cluster ∧ k.namespace_ = ns ∧ k.pod_name = p.name := by
  intro k hk
  unfold startedKeys at hk
  cases hcs : p.containers with
  | none => rw [hcs] at hk; exact absurd hk (List.not_mem_nil k)
  | some cs =>
    rw [hcs] at hk
    simp only [List.mem_map] at hk
    obtain ⟨c, _, rfl⟩ := hk
    exact ⟨rfl, rfl, rfl⟩

theorem projPod_startedKeys_same (cluster ns : String) (f : Option String)
    (p : PodApply) :
    projPod cluster ns p.name (startedKeys cluster ns f p)
      = startedKeys cluster ns f p := by
  unfold projPod
  rw [List.filter_eq_self]
  intro k hk
  obtain ⟨h1, h2, h3⟩ := startedKeys_fields cluster ns f p k hk
  simp [podMatches, h1, h2, h3]

theorem projPod_startedKeys_other (cluster ns : String) (f : Option String)
    (p : PodApply) (q : String) (hq : p.name ≠ q) :
    projPod cluster ns q (startedKeys cluster ns f p) = [] := by
  unfold projPod
  rw [List.filter_eq_nil_iff]
  intro k hk
  obtain ⟨_, _, h3⟩ := startedKeys_fields cluster ns f p k hk
  simp [podMatches, h3, hq]

theorem podMatches_disjoint (cluster ns : String) {q r : String} (h : r ≠ q) :
    ∀ k, podMatches cluster ns q k = true → podMatches cluster ns r k = false := by
  intro k hk
  simp only [podMatches, Bool.and_eq_true, beq_iff_eq] at hk
  have hne : (k.pod_name == r) = false :=
    beq_eq_false_iff_ne.mpr (by rw [hk.2]; exact fun hr => h hr.symm)
  simp [podMatches, hne]

theorem projPod_append (cluster ns q : String) (a b : List PodKey) :
    projPod cluster ns q (a ++ b)
      = projPod cluster ns q a ++ projPod cluster ns q b := by
  unfold projPod
  rw [List.filter_append]

/-- Function `handle_pod_event` restated through the projection on its own pod:
the `was_tracking` scan of the whole map is exactly non-emptiness of the
projection. -/
theorem handle_pod_event_eq_proj (cluster ns : String) (f : Option String)
    (m : List PodKey) (p : PodApply) :
    handle_pod_event cluster ns f m p =
      (if (projPod cluster ns p.name m).isEmpty
          && ((p.phase.getD "Unknown" == "Running")
              || (p.phase.getD "Unknown" == "Pending")) then
        m ++ startedKeys cluster ns f p
      else if !(projPod cluster ns p.name m).isEmpty
          && !(p.phase.getD "Unknown" == "Running") then
        stop_tailing_pod cluster ns p.name m
      else
        m) := by
  unfold handle_pod_event projPod
  rw [any_eq_not_filter_isEmpty]
  simp

theorem projPod_superStep (cluster ns : String) (f : Option String) (q : String)
    (m : List PodKey) (e : PodEvent) :
    projPod cluster ns q (superStep cluster ns f m e)
      = podAutoStep cluster ns f q (projPod cluster ns q m) e := by
  cases e with
  | delete nm =>
    show projPod cluster ns q (stop_tailing_pod cluster ns nm m)
      = if (nm == q) = true then [] else projPod cluster ns q m
    by_cases h : nm = q
    · subst h
      rw [if_pos (by simp)]
      exact filter_not_filter_self _ m
    · rw [if_neg (by simp [h])]
      exact filter_not_filter_of_disjoint (podMatches_disjoint cluster ns h) m
  | apply p =>
    show projPod cluster ns q (handle_pod_event cluster ns f m p) = _
    rw [handle_pod_event_eq_proj]
    by_cases hpq : p.name = q
    · subst hpq
      show _ = if (p.name == p.name) = true then
          (if (projPod cluster ns p.name m).isEmpty
              && ((p.phase.getD "Unknown" == "Running")
                  || (p.phase.getD "Unknown" == "Pending")) then
            startedKeys cluster ns f p
          else if !(projPod cluster ns p.name m).isEmpty
              && !(p.phase.getD "Unknown" == "Running") then
            ([] : List PodKey)
          else projPod cluster ns p.name m)
        else projPod cluster ns p.name m
      rw [if_pos (show (p.name == p.name) = true from beq_self_eq_true p.name)]
      by_cases hc1 : ((projPod cluster ns p.name m).isEmpty
          && ((p.phase.getD "Unknown" == "Running")
              || (p.phase.getD "Unknown" == "Pending"))) = true
      · rw [if_pos hc1, if_pos hc1]
        have hnil : projPod cluster ns p.name m = [] := by
          simp only [Bool.and_eq_true] at hc1
          exact List.isEmpty_iff.mp hc1.1
        rw [projPod_append, hnil, projPod_startedKeys_same, List.nil_append]
      · rw [if_neg hc1, if_neg hc1]
        by_cases hc2 : (!(projPod cluster ns p.name m).isEmpty
            && !(p.phase.getD "Unknown" == "Running")) = true
        · rw [if_pos hc2, if_pos hc2]
          exact filter_not_filter_self _ m
        · rw [if_neg hc2, if_neg hc2]
    · show _ = if (p.name == q) = true then
          (if (projPod cluster ns q m).isEmpty
              && ((p.phase.getD "Unknown" == "Running")
                  || (p.phase.getD "Unknown" == "Pending")) then
            startedKeys cluster ns f p
          else if !(projPod cluster ns q m).isEmpty
              && !(p.phase.getD "Unknown" == "Running") then
            ([] : List PodKey)
          else projPod cluster ns q m)
        else projPod cluster ns q m
      rw [if_neg (show ¬((p.name == q) = true) by simp [hpq])]
      by_cases hc1 : ((projPod cluster ns p.name m).isEmpty
          && ((p.phase.getD "Unknown" == "Running")
              || (p.phase.getD "Unknown" == "Pending"))) = true
      · rw [if_pos hc1]
        rw [projPod_append, projPod_startedKeys_other cluster ns f p q hpq,
          List.append_nil]
      · rw [if_neg hc1]
        by_cases hc2 : (!(projPod cluster ns p.name m).isEmpty
            && !(p.phase.getD "Unknown" == "Running")) = true
        · rw [if_pos hc2]
          exact filter_not_filter_of_disjoint
            (podMatches_disjoint cluster ns hpq) m
        · rw [if_neg hc2]

theorem projPod_foldl (cluster ns : String) (f : Option String) (q : String) :
    ∀ (events : List PodEvent) (m : List PodKey),
      projPod cluster ns q (events.foldl (superStep cluster ns f) m)
        = events.foldl (podAutoStep cluster ns f q) (projPod cluster ns q m) := by
  intro events
  induction events with
  | nil => intro m; rfl
  | cons e es ih =>
    intro m
    simp only [List.foldl_cons]
    rw [ih, projPod_superStep]

theorem superStep_all_cluster_ns (cluster ns : String) (f : Option String)
    (m : List PodKey) (e : PodEvent)
    (h : (m.all fun k => k.cluster == cluster && k.namespace_ == ns) = true) :
    ((superStep cluster ns f m e).all
      fun k => k.cluster == cluster && k.namespace_ == ns) = true := by
  cases e with
  | delete nm => exact filter_all_of_all m h
  | apply p =>
    show ((handle_pod_event cluster ns f m p).all
      fun k => k.cluster == cluster && k.namespace_ == ns) = true
    rw [handle_pod_event_eq_proj]
    split
    · simp only [List.all_append, Bool.and_eq_true]
      refine ⟨h, ?_⟩
      rw [List.all_eq_true]
      intro k hk
      obtain ⟨h1, h2, _⟩ := startedKeys_fields cluster ns f p k hk
      simp [h1, h2]
    · split
      · exact filter_all_of_all m h
      · exact h

/-! ### Claim C1 -/

/-- C1 counterexample.  The claim states that at quiescence the active
Follow Tasks are exactly the containers of pods whose **last observed
phase is Running or Pending**, and in particular that a Modified event
with phase Pending for an already-tracked pod leaves its tasks running.
On the code this is false: `handle_pod_event` stops tailing whenever
`was_tracking && !is_running`, so the second Pending event for pod `"p"`
(with a pod GET that succeeds both times) cancels the task for
container `"c"` even though the pod's last observed phase is Pending.
The quiescent handle map is empty, not
`[⟨"ctx", "default", "p", "c"⟩]`. -/
theorem C1_counterexample_pending_modified_cancels :
    lastObservedPhase
        [PodEvent.apply ⟨"p", some "Pending", some ["c"], .ok (some ["c"])⟩,
         PodEvent.apply ⟨"p", some "Pending", some ["c"], .ok (some ["c"])⟩]
        "p"
      = some "Pending"
    ∧ superRun "ctx" "default" none
        [PodEvent.apply ⟨"p", some "Pending", some ["c"], .ok (some ["c"])⟩,
         PodEvent.apply ⟨"p", some "Pending", some ["c"], .ok (some ["c"])⟩]
      = [] := by
  exact ⟨rfl, rfl⟩

/-- C1 (amended).  For every finite sequence of pod presence events
applied sequentially to the Supervisor's handler, at quiescence the
handle map contains only keys of the handler's cluster and namespace,
and its projection onto each pod equals the run of the per-pod tracking
automaton `podAutoStep`: tracking starts when an event with phase
Running or Pending arrives for an untracked pod, recording the event's
`spec.containers` names zipped against the handles
`spawn_tail_tasks_for_pod` returns (a single handle with a
`--container` filter; without one, a handle per container of the
re-fetched pod, and **none** when that pod GET fails or the fetched pod
has no spec, so nothing is recorded and the pod stays untracked); and
**all tasks of a tracked pod are cancelled by any event whose phase is
not Running** — including a Modified event with phase Pending — and by
the pod's disappearance. -/
theorem C1_supervisor_quiescence_tracking :
    ∀ (cluster ns : String) (filter : Option String) (events : List PodEvent),
      ((superRun cluster ns filter events).all
        fun k => k.cluster == cluster && k.namespace_ == ns) = true
      ∧ ∀ pod, projPod cluster ns pod (superRun cluster ns filter events)
          = podAutoRun cluster ns filter pod events := by
  intro cluster ns filter events
  constructor
  · unfold superRun
    have base : (([] : List PodKey).all
        fun k => k.cluster == cluster && k.namespace_ == ns) = true := rfl
    generalize hm : ([] : List PodKey) = m at base
    clear hm
    induction events generalizing m with
    | nil => exact base
    | cons e es ih =>
      simp only [List.foldl_cons]
      exact ih _ (superStep_all_cluster_ns cluster ns filter m e base)
  · intro pod
    unfold superRun podAutoRun
    rw [projPod_foldl]
    rfl

/-! ### Follow Task lemmas -/

theorem tailStep_no_exit (pod container : String) (st : TailLoopState)
    (a : ConnAttempt) (h : is404 a = false) :
    (tailStep pod container st a).2.2 = false := by
  cases a with
  | opened reads => rfl
  | openErr e =>
    cases e with
    | api code =>
      have hc : code ≠ 404 := by
        simpa [is404] using h
      simp [tailStep, hc]
    | other msg => rfl

theorem tailStep_exit (pod container : String) (st : TailLoopState)
    (a : ConnAttempt) (h : is404 a = true) :
    (tailStep pod container st a).2.2 = true := by
  cases a with
  | opened reads => exact absurd h (by simp [is404])
  | openErr e =>
    cases e with
    | api code =>
      have hc : code = 404 := by simpa [is404] using h
      simp [tailStep, hc]
    | other msg => exact absurd h (by simp [is404])

theorem tailRun_append_no404 (pod container : String) :
    ∀ (pre : List ConnAttempt) (st : TailLoopState)
      (rest : List ConnAttempt),
      (pre.all fun a => !is404 a) = true →
      tailRun pod container st (pre ++ rest)
        = ((tailRun pod container st pre).1
            ++ (tailRun pod container (tailRun pod container st pre).2.1 rest).1,
           (tailRun pod container (tailRun pod container st pre).2.1 rest).2.1,
           (tailRun pod container (tailRun pod container st pre).2.1 rest).2.2) := by
  intro pre
  induction pre with
  | nil => intro st rest _; simp [tailRun]
  | cons a as ih =>
    intro st rest h
    simp only [List.all_cons, Bool.and_eq_true, Bool.not_eq_true'] at h
    have hne := tailStep_no_exit pod container st a h.1
    simp only [List.cons_append, tailRun, hne, List.append_eq,
      if_neg Bool.false_ne_true]
    rw [ih (tailStep pod container st a).2.1 rest h.2]
    simp [List.append_assoc]

theorem tailRun_exit_iff (pod container : String) :
    ∀ (script : List ConnAttempt) (st : TailLoopState),
      (tailRun pod container st script).2.2 = script.any is404 := by
  intro script
  induction script with
  | nil => intro st; rfl
  | cons a as ih =>
    intro st
    cases h : is404 a with
    | true =>
      have := tailStep_exit pod container st a h
      simp [tailRun, this, h]
    | false =>
      have := tailStep_no_exit pod container st a h
      simp [tailRun, this, h, ih]

theorem emittedLines_append (a b : List TailEvent) :
    emittedLines (a ++ b) = emittedLines a ++ emittedLines b := by
  simp [emittedLines, List.filterMap_append]

theorem emittedLines_map_log (pod container : String) (ls : List String) :
    emittedLines (ls.map (TailEvent.log pod container)) = ls := by
  induction ls with
  | nil => rfl
  | cons l rest ih => simp [emittedLines, List.filterMap_cons] at ih ⊢; exact ih

theorem emittedLines_tailStep (pod container : String) (st : TailLoopState)
    (a : ConnAttempt) :
    emittedLines (tailStep pod container st a).1 = connOkLines a := by
  cases a with
  | opened reads =>
    show emittedLines
      ((if st.attempt + 1 > 1 then
          (if st.disconnected then [TailEvent.gap pod container] else [])
            ++ [TailEvent.statusChange pod container
                  (.reconnecting (st.attempt + 1 - 1)) .connected]
        else [])
        ++ (okPrefixLines reads).map (TailEvent.log pod container)
        ++ [TailEvent.statusChange pod container .connected (.reconnecting 1)])
      = connOkLines (.opened reads)
    rw [emittedLines_append, emittedLines_append, emittedLines_map_log]
    by_cases h1 : st.attempt + 1 > 1 <;> by_cases h2 : st.disconnected = true <;>
      simp [h1, h2, emittedLines, connOkLines]
  | openErr e =>
    cases e with
    | api code =>
      by_cases hc : code = 404 <;> simp [tailStep, hc, emittedLines, connOkLines]
    | other msg => simp [tailStep, emittedLines, connOkLines]

theorem emittedLines_tailRun_no404 (pod container : String) :
    ∀ (script : List ConnAttempt) (st : TailLoopState),
      (script.all fun a => !is404 a) = true →
      emittedLines (tailRun pod container st script).1
        = (script.map connOkLines).flatten := by
  intro script
  induction script with
  | nil => intro st _; rfl
  | cons a as ih =>
    intro st h
    simp only [List.all_cons, Bool.and_eq_true, Bool.not_eq_true'] at h
    have hne := tailStep_no_exit pod container st a h.1
    simp only [tailRun, hne, if_neg Bool.false_ne_true]
    rw [emittedLines_append, emittedLines_tailStep,
      ih (tailStep pod container st a).2.1 h.2]
    simp

/-! ### Claim C2 -/

/-- C2 counterexample.  The claim states that a line the server replays
verbatim in the first batch after a reconnect (within the FIFO of the
last 100 emitted lines) is dropped and not emitted a second time.  The
code of `spawn_tail_task` has no duplicate suppression at all: with the
server delivering `L1, L2`, then (after a stream reset) replaying `L2`
and sending `L3`, the task emits `L1, L2, L2, L3` — the replayed `L2`
is emitted twice, while the dedup behaviour the spec describes
(`specDedupEmit`) would produce `L1, L2, L3`. -/
theorem C2_counterexample_replay_not_suppressed :
    emittedLines (tailTaskRun "p" "c"
        [ConnAttempt.opened [ReadResult.ok "L1", ReadResult.ok "L2"],
         ConnAttempt.opened [ReadResult.ok "L2", ReadResult.ok "L3"]]).1
      = ["L1", "L2", "L2", "L3"]
    ∧ (emittedLines (tailTaskRun "p" "c"
        [ConnAttempt.opened [ReadResult.ok "L1", ReadResult.ok "L2"],
         ConnAttempt.opened [ReadResult.ok "L2", ReadResult.ok "L3"]]).1).count "L2"
      = 2
    ∧ specDedupEmit [["L1", "L2"], ["L2", "L3"]] = ["L1", "L2", "L3"] := by
  refine ⟨by decide, by decide, by decide⟩

/-- C2 (amended).  `spawn_tail_task` performs no duplicate suppression:
across any sequence of reconnects (with no terminal 404), the lines
delivered downstream are exactly the concatenation of the lines read on
each connection, one emission per delivery.  Hence every line the server
delivers as a distinct byte sequence is emitted exactly once, but a line
the server replays verbatim after a reconnect is emitted again (its
emission count is the sum of its per-connection delivery counts), with
no bounded FIFO filtering. -/
theorem C2_no_dedup_lines_once_per_delivery :
    ∀ (pod container : String) (script : List ConnAttempt),
      (script.all fun a => !is404 a) = true →
      emittedLines (tailTaskRun pod container script).1
        = (script.map connOkLines).flatten
      ∧ ∀ s : String,
          (emittedLines (tailTaskRun pod container script).1).count s
            = ((script.map connOkLines).map (List.count s)).sum := by
  intro pod container script h
  have hjoin := emittedLines_tailRun_no404 pod container script ⟨true, 0, false⟩ h
  refine ⟨hjoin, fun s => ?_⟩
  show (emittedLines (tailRun pod container ⟨true, 0, false⟩ script).1).count s = _
  rw [hjoin, List.count_flatten]

/-- Witness for C2: a concrete three-connection script (one transient
open error in the middle) on which the amended theorem evaluates. -/
theorem C2_witness :
    (([ConnAttempt.opened [ReadResult.ok "A"],
       ConnAttempt.openErr (StreamOpenError.other "boom"),
       ConnAttempt.opened [ReadResult.ok "B"]].all fun a => !is404 a) = true)
    ∧ emittedLines (tailTaskRun "p" "c"
        [ConnAttempt.opened [ReadResult.ok "A"],
         ConnAttempt.openErr (StreamOpenError.other "boom"),
         ConnAttempt.opened [ReadResult.ok "B"]]).1 = ["A", "B"] := by
  refine ⟨by decide, ?_⟩
  have h := (C2_no_dedup_lines_once_per_delivery "p" "c"
    [ConnAttempt.opened [ReadResult.ok "A"],
     ConnAttempt.openErr (StreamOpenError.other "boom"),
     ConnAttempt.opened [ReadResult.ok "B"]] (by decide)).1
  rw [h]
  decide

/-! ### Claim C4 -/

/-- C4 counterexample.  The claim quotes the terminal event as
`StateChange(Failed("not found"))`; the code (src/kubernetes.rs:266)
constructs `ConnectionState::Failed("Pod not found".to_string())`, a
different reason string. -/
theorem C4_counterexample_failed_reason_string :
    (tailTaskRun "p" "c" [ConnAttempt.openErr (StreamOpenError.api 404)]).1
      = [TailEvent.statusChange "p" "c" ConnState.connected
          (ConnState.failed "Pod not found")]
    ∧ ConnState.failed "Pod not found" ≠ ConnState.failed "not found" := by
  refine ⟨by decide, by decide⟩

/-- C4 (amended).  A 404 API error when opening the follow-log stream is
terminal: after any prefix of non-404 attempts, the task emits a single
`StatusChange` to `Failed("Pod not found")` and returns, processing no
further connection attempts; the task returns early exactly when the
script contains a 404 open error; and every non-404 open error is not
terminal — it emits `StatusChange(Reconnecting(attempt))` and retries
after the 5 s backoff. -/
theorem C4_notfound_terminal_others_retry :
    ∀ (pod container : String) (pre post : List ConnAttempt)
      (st : TailLoopState) (e : StreamOpenError),
      (pre.all fun a => !is404 a) = true →
      (tailTaskRun pod container
          (pre ++ ConnAttempt.openErr (StreamOpenError.api 404) :: post)).1
          = (tailTaskRun pod container pre).1
            ++ [TailEvent.statusChange pod container ConnState.connected
                  (ConnState.failed "Pod not found")]
      ∧ (tailTaskRun pod container
          (pre ++ ConnAttempt.openErr (StreamOpenError.api 404) :: post)).2.2
          = true
      ∧ (tailTaskRun pod container pre).2.2 = false
      ∧ (is404 (ConnAttempt.openErr e) = false →
          (tailStep pod container st (ConnAttempt.openErr e)).2.2 = false
          ∧ (tailStep pod container st (ConnAttempt.openErr e)).1
              = [TailEvent.statusChange pod container ConnState.connected
                  (ConnState.reconnecting (st.attempt + 1))]) := by
  intro pod container pre post st e hpre
  have happ := tailRun_append_no404 pod container pre ⟨true, 0, false⟩
    (ConnAttempt.openErr (StreamOpenError.api 404) :: post) hpre
  have hstep : tailRun pod container
      (tailRun pod container ⟨true, 0, false⟩ pre).2.1
      (ConnAttempt.openErr (StreamOpenError.api 404) :: post)
      = ([TailEvent.statusChange pod container ConnState.connected
            (ConnState.failed "Pod not found")],
          ⟨false, (tailRun pod container ⟨true, 0, false⟩ pre).2.1.attempt + 1,
            true⟩, true) := by
    simp [tailRun, tailStep]
  refine ⟨?_, ?_, ?_, ?_⟩
  · rw [tailTaskRun, tailTaskRun, happ, hstep]
  · rw [tailTaskRun, happ, hstep]
  · rw [tailTaskRun, tailRun_exit_iff]
    simp only [List.all_eq_true, Bool.not_eq_true'] at hpre
    rw [List.any_eq_false]
    intro x hx
    simp [hpre x hx]
  · intro h404
    cases e with
    | api code =>
      have hc : code ≠ 404 := by simpa [is404] using h404
      exact ⟨by simp [tailStep, hc], by simp [tailStep, hc]⟩
    | other msg => exact ⟨rfl, rfl⟩

/-- Witness for C4: concrete evaluation with a one-connection prefix, a
404 open error, a discarded trailing attempt, and a non-404 error. -/
theorem C4_witness :
    (([ConnAttempt.opened [ReadResult.ok "A"]].all fun a => !is404 a) = true)
    ∧ (tailTaskRun "p" "c"
        ([ConnAttempt.opened [ReadResult.ok "A"]]
          ++ ConnAttempt.openErr (StreamOpenError.api 404)
            :: [ConnAttempt.opened [ReadResult.ok "B"]])).1
        = (tailTaskRun "p" "c" [ConnAttempt.opened [ReadResult.ok "A"]]).1
          ++ [TailEvent.statusChange "p" "c" ConnState.connected
                (ConnState.failed "Pod not found")] := by
  refine ⟨by decide, ?_⟩
  exact (C4_notfound_terminal_others_retry "p" "c"
    [ConnAttempt.opened [ReadResult.ok "A"]]
    [ConnAttempt.opened [ReadResult.ok "B"]]
    ⟨true, 0, false⟩ (StreamOpenError.other "x") (by decide)).1

/-! ### Claim C3 -/

/-- C3 (code bug).  An unknown resource kind does make
`get_selector_from_resource` return the `Unsupported resource type`
error, but `parse_resources_and_selectors` swallows every selector
error with a logged warning ("Will wait for it to appear.") and
continues, so the invocation does **not** fail with exit code 1: for
every cluster state, the reference `foo/x` contributes neither a label
selector nor an explicit pod, and startup proceeds without it —
contradicting the spec's `ConfigError`/exit-1 requirement for unknown
kinds. -/
theorem C3_unknown_kind_swallowed :
    (∀ env : String → String → String → GetOutcome,
      get_selector_from_resource env "foo" "x" "default"
        = .error "Unsupported resource type: foo"
      ∧ processGroup env "default" [⟨none, none, some "foo", "x"⟩] = ([], []))
    ∧ processGroup (fun _ _ _ => GetOutcome.apiErr "not found") "default"
        [⟨none, none, some "foo", "x"⟩, ⟨none, none, none, "my-pod"⟩]
      = ([], ["my-pod"]) := by
  refine ⟨fun env => ⟨rfl, rfl⟩, by decide⟩

/-! ### Claim C6 -/

/-- C6.  A label selector whose `match_labels` and `match_expressions`
are all empty (absent or present-but-empty) serializes to `None` —
kube's conversion yields the empty expression list, which
`selects_all`, and `selector_to_labels_string` filters it out — and the
resolver loop pushes no label selector and no explicit pod for it, so
no label-based watch is ever created from an empty selector. -/
theorem C6_empty_selector_never_match_all :
    ∀ (ml : Option (List (String × String)))
      (me : Option (List LabelSelectorRequirement))
      (name kind : String) (acc : List String × List String),
      ml.getD [] = [] →
      me.getD [] = [] →
      selector_to_labels_string ⟨ml, me⟩ = none
      ∧ processOne name kind (.ok (some ⟨ml, me⟩)) acc = acc := by
  intro ml me name kind acc h1 h2
  have hs : selector_to_labels_string ⟨ml, me⟩ = none := by
    unfold selector_to_labels_string selectorTryFrom
    simp only [h1, h2]
    rfl
  refine ⟨hs, ?_⟩
  show (match selector_to_labels_string ⟨ml, me⟩ with
    | some s => (acc.1 ++ [s], acc.2)
    | none => acc) = acc
  rw [hs]

/-- Witness for C6: the empty selector with `match_labels = None` and
`match_expressions = Some([])`. -/
theorem C6_witness :
    (Option.getD (none : Option (List (String × String))) [] = [])
    ∧ (Option.getD (some ([] : List LabelSelectorRequirement)) [] = [])
    ∧ selector_to_labels_string ⟨none, some []⟩ = none
    ∧ processOne "web" "deployment" (.ok (some ⟨none, some []⟩)) (["a=b"], [])
        = (["a=b"], []) := by
  refine ⟨rfl, rfl, ?_⟩
  exact C6_empty_selector_never_match_all none (some []) "web" "deployment"
    (["a=b"], []) rfl rfl

/-- C7 counterexample.  The claim says that when `--container` names a
container absent from the pod's `spec.containers`, no Follow Task is
started.  In the code the `Some(cont)` branch spawns one task
unconditionally: for a pod whose only container is `app` and the filter
`web`, a task for `web` is spawned even though `web` is not among the
pod's containers. -/
theorem C7_counterexample_missing_container_still_spawned :
    spawn_tail_tasks_for_pod (some "web") (.ok (some ["app"])) = ["web"]
    ∧ (["app"].contains "web") = false := by
  refine ⟨rfl, by decide⟩

/-- C7 (amended).  With a `--container` filter, exactly one Follow Task
is spawned for the named container regardless of the pod's spec (no
existence check, and no error either way); without a filter, the tasks
are exactly the pod's `spec.containers` (none when the pod GET fails or
the pod has no spec). -/
theorem C7_container_filter_spawns_unconditionally :
    (∀ (c : String) (fetch : PodFetch),
      spawn_tail_tasks_for_pod (some c) fetch = [c])
    ∧ (∀ cs : List String,
        spawn_tail_tasks_for_pod none (.ok (some cs)) = cs)
    ∧ spawn_tail_tasks_for_pod none (.ok none) = []
    ∧ ∀ msg : String, spawn_tail_tasks_for_pod none (.err msg) = [] := by
  exact ⟨fun c fetch => rfl, fun cs => rfl, rfl, fun msg => rfl⟩

theorem busTry_inv (cap : Nat) (st : BusState) (op : BusOp)
    (h : busInv cap st) : busInv cap ((busTry cap st op).getD st) := by
  cases op with
  | send m =>
    by_cases hlt : st.pending.length < cap
    · simp only [busTry, if_pos hlt, Option.getD_some]
      exact ⟨by simpa using hlt, by rw [← List.append_assoc, h.2]⟩
    · simp only [busTry, if_neg hlt, Option.getD_none]
      exact h
  | recv =>
    cases hp : st.pending with
    | nil => simpa [busTry, hp] using h
    | cons x xs =>
      simp only [busTry, hp, Option.getD_some]
      refine ⟨?_, ?_⟩
      · have := h.1
        rw [hp] at this
        simpa using Nat.le_of_succ_le_succ (Nat.le_succ_of_le this)
      · have h2 := h.2
        rw [hp] at h2
        simpa [List.append_assoc] using h2

theorem busRun_inv (cap : Nat) :
    ∀ (ops : List BusOp) (st : BusState),
      busInv cap st → busInv cap (busRun cap st ops) := by
  intro ops
  induction ops with
  | nil => intro st h; exact h
  | cons op rest ih =>
    intro st h
    exact ih _ (busTry_inv cap st op h)

/-! ### Claim C5 -/

/-- C5.  The log event channel is created with capacity
`cli.buffer_size` (default 10,000, from clap's `default_value`).  Under
any schedule of send/recv operations from the empty channel, at most
`cap` events are ever pending and the events the bus accepted are
exactly those received plus those pending, in order — the bus drops
nothing.  A send is blocked exactly when `cap` messages are pending,
and once the consumer drains one message from a full channel, a send
succeeds again. -/
theorem C5_bus_bounded_blocking_no_loss :
    cliBufferSizeDefault = 10000
    ∧ (∀ (cap : Nat) (ops : List BusOp),
        (busRun cap busInit ops).pending.length ≤ cap
        ∧ (busRun cap busInit ops).received ++ (busRun cap busInit ops).pending
            = (busRun cap busInit ops).accepted)
    ∧ (∀ (cap : Nat) (st : BusState) (m : LogMsg),
        busTry cap st (.send m) = none ↔ cap ≤ st.pending.length)
    ∧ (∀ (cap : Nat) (st : BusState) (m x : LogMsg) (xs : List LogMsg),
        st.pending = x :: xs → st.pending.length = cap →
        ∃ st2, busTry cap st .recv = some st2
          ∧ ∃ st3, busTry cap st2 (.send m) = some st3) := by
  refine ⟨rfl, ?_, ?_, ?_⟩
  · intro cap ops
    exact busRun_inv cap ops busInit ⟨by simp [busInit], rfl⟩
  · intro cap st m
    constructor
    · intro h
      by_contra hlt
      simp only [busTry, if_pos (Nat.lt_of_not_le hlt)] at h
      exact Option.noConfusion h
    · intro h
      simp only [busTry, if_neg (Nat.not_lt_of_le h)]
  · intro cap st m x xs hp hlen
    refine ⟨⟨xs, st.received ++ [x], st.accepted⟩, by simp [busTry, hp], ?_⟩
    have hxs : xs.length < cap := by
      rw [hp] at hlen
      simp only [List.length_cons] at hlen
      omega
    exact ⟨⟨xs ++ [m], st.received ++ [x], st.accepted ++ [m]⟩,
      by simp [busTry, if_pos hxs]⟩

/-- Witness for C5: a full channel of capacity 1; after one recv the
send succeeds. -/
theorem C5_witness :
    ∃ st2, busTry 1 ⟨[⟨"c", "ns", "p", "ct", "L1"⟩], [],
        [⟨"c", "ns", "p", "ct", "L1"⟩]⟩ BusOp.recv = some st2
      ∧ ∃ st3, busTry 1 st2 (BusOp.send ⟨"c", "ns", "p", "ct", "L2"⟩)
          = some st3 :=
  C5_bus_bounded_blocking_no_loss.2.2.2 1
    ⟨[⟨"c", "ns", "p", "ct", "L1"⟩], [], [⟨"c", "ns", "p", "ct", "L1"⟩]⟩
    ⟨"c", "ns", "p", "ct", "L2"⟩ ⟨"c", "ns", "p", "ct", "L1"⟩ [] rfl rfl

/-! ### Claim C8 -/

/-- C8.  If `--grep` is given a pattern the regex engine rejects,
`run_stdout_mode` exits with code 1 after emitting a single diagnostic
that names the bad pattern, and prints nothing; with a pattern that
compiles, it exits normally and prints exactly the messages whose line
matches, dropping non-matching lines before printing. -/
theorem C8_invalid_regex_exits_valid_regex_filters :
    ∀ (hash : String → Nat)
      (compile : String → Except String (String → Bool))
      (pat : String) (msgs : List LogMsg),
      (∀ e, compile pat = .error e →
        run_stdout_mode hash compile (some pat) msgs
          = ⟨some 1, ["Invalid regex pattern '" ++ pat ++ "': " ++ e], []⟩)
      ∧ (∀ f, compile pat = .ok f →
          run_stdout_mode hash compile (some pat) msgs
            = ⟨none, [],
                (msgs.filter (fun m => f m.line)).map
                  (fun m => (formatMessage m, messageColor hash m))⟩) := by
  intro hash compile pat msgs
  constructor
  · intro e he
    show (match compile pat with
      | .error e =>
        (⟨some 1, ["Invalid regex pattern '" ++ pat ++ "': " ++ e], []⟩ : StdoutRun)
      | .ok isMatch =>
        ⟨none, [],
          (msgs.filter (fun m : LogMsg => isMatch m.line)).map
            (fun m => (formatMessage m, messageColor hash m))⟩) = _
    rw [he]
  · intro f hf
    show (match compile pat with
      | .error e =>
        (⟨some 1, ["Invalid regex pattern '" ++ pat ++ "': " ++ e], []⟩ : StdoutRun)
      | .ok isMatch =>
        ⟨none, [],
          (msgs.filter (fun m : LogMsg => isMatch m.line)).map
            (fun m => (formatMessage m, messageColor hash m))⟩) = _
    rw [hf]

/-- Witness for C8: a concrete failing compile (the spec's
`([unclosed` scenario) and a concrete matcher. -/
theorem C8_witness :
    ((fun _ : String =>
        (Except.error "unclosed group" : Except String (String → Bool)))
          "([unclosed"
        = .error "unclosed group")
    ∧ run_stdout_mode (fun s => s.length)
        (fun _ => .error "unclosed group") (some "([unclosed")
        [⟨"c", "ns", "p", "ct", "hello"⟩]
      = ⟨some 1, ["Invalid regex pattern '([unclosed': unclosed group"], []⟩ := by
  refine ⟨rfl, ?_⟩
  exact (C8_invalid_regex_exits_valid_regex_filters (fun s => s.length)
    (fun _ => .error "unclosed group") "([unclosed"
    [⟨"c", "ns", "p", "ct", "hello"⟩]).1 "unclosed group" rfl

/-! ### Claim C9 -/

theorem formatMessage_eq (m : LogMsg) :
    formatMessage m
      = "[" ++ m.cluster ++ "." ++ m.namespace_ ++ "/" ++ m.pod_name ++ "/"
          ++ m.container_name ++ "] " ++ m.line := by
  unfold formatMessage headerText
  have h : ("]" : String) ++ " " = "] " := rfl
  congr 1
  rw [String.append_assoc, h]

/-- C9.  In stdout mode without a grep filter every delivered message is
printed as `[cluster.namespace/pod/container] <line>`, and the header
colour is a deterministic function of the string `cluster/pod` alone:
any two messages with the same cluster and pod name — in the same or
another run of the deterministic fixed-key `DefaultHasher` — get the
same colour. -/
theorem C9_format_and_color_determinism :
    ∀ (hash : String → Nat)
      (compile : String → Except String (String → Bool))
      (msgs : List LogMsg),
      run_stdout_mode hash compile none msgs
        = ⟨none, [],
            msgs.map (fun m =>
              ("[" ++ m.cluster ++ "." ++ m.namespace_ ++ "/" ++ m.pod_name
                  ++ "/" ++ m.container_name ++ "] " ++ m.line,
                get_crossterm_color hash (m.cluster ++ "/" ++ m.pod_name)))⟩
      ∧ ∀ m1 m2 : LogMsg, m1.cluster = m2.cluster →
          m1.pod_name = m2.pod_name →
          messageColor hash m1 = messageColor hash m2 := by
  intro hash compile msgs
  constructor
  · have hfun : (fun m : LogMsg => (formatMessage m, messageColor hash m))
        = (fun m : LogMsg =>
            ("[" ++ m.cluster ++ "." ++ m.namespace_ ++ "/" ++ m.pod_name
                ++ "/" ++ m.container_name ++ "] " ++ m.line,
              get_crossterm_color hash (m.cluster ++ "/" ++ m.pod_name))) := by
      funext m
      rw [formatMessage_eq m]
      rfl
    show (⟨none, [],
        msgs.map (fun m => (formatMessage m, messageColor hash m))⟩ : StdoutRun)
      = _
    rw [hfun]
  · intro m1 m2 h1 h2
    unfold messageColor colorKey
    rw [h1, h2]

/-- Witness for C9: two messages sharing cluster and pod but with
different namespaces, containers and lines get the same colour. -/
theorem C9_witness :
    messageColor (fun s => s.length) ⟨"east", "ns1", "web-1", "app", "A"⟩
      = messageColor (fun s => s.length) ⟨"east", "ns2", "web-1", "srv", "B"⟩ :=
  (C9_format_and_color_determinism (fun s => s.length)
      (fun _ => .error "") []).2
    ⟨"east", "ns1", "web-1", "app", "A"⟩
    ⟨"east", "ns2", "web-1", "srv", "B"⟩ rfl rfl

/-- With `max_buffer_size = 0` the eviction loop runs forever whatever
the fuel: the guard `0 ≤ len` always holds. -/
theorem evictLoop_zero_none :
    ∀ (fuel : Nat) (buf : List LogMsg) (scroll : Nat),
      evictLoop 0 fuel buf scroll = none := by
  intro fuel
  induction fuel with
  | zero => intro buf scroll; rfl
  | succ n ih =>
    intro buf scroll
    simp only [evictLoop, if_pos (Nat.zero_le _)]
    exact ih _ _

/-- For a positive capacity the loop terminates within the fuel and
drops exactly `len + 1 - max` oldest entries, decrementing the scroll
offset (saturating at 0) once per drop. -/
theorem evictLoop_pos (max : Nat) (hmax : 1 ≤ max) :
    ∀ (buf : List LogMsg) (scroll : Nat),
      evictLoop max (buf.length + 1) buf scroll
        = some (buf.drop (buf.length + 1 - max),
            scroll - (buf.length + 1 - max)) := by
  intro buf
  induction buf with
  | nil =>
    intro scroll
    have h0 : ¬ max ≤ ([] : List LogMsg).length := by
      simp only [List.length_nil]
      omega
    have h1 : ([] : List LogMsg).length + 1 - max = 0 := by
      simp only [List.length_nil]
      omega
    show (if max ≤ ([] : List LogMsg).length then
        evictLoop max 0 ([] : List LogMsg).tail
          (if scroll > 0 then scroll - 1 else scroll)
      else some (([] : List LogMsg), scroll)) = _
    rw [if_neg h0, h1]
    simp
  | cons x xs ih =>
    intro scroll
    by_cases hge : max ≤ (x :: xs).length
    · have hge' : max ≤ xs.length + 1 := by simpa using hge
      have hscroll : (if scroll > 0 then scroll - 1 else scroll) = scroll - 1 := by
        by_cases hs : scroll > 0
        · rw [if_pos hs]
        · rw [if_neg hs]
          omega
      show (if max ≤ (x :: xs).length then
          evictLoop max (xs.length + 1) (x :: xs).tail
            (if scroll > 0 then scroll - 1 else scroll)
        else some (x :: xs, scroll)) = _
      rw [if_pos hge, hscroll, List.tail_cons, ih (scroll - 1)]
      have hk : (x :: xs).length + 1 - max = (xs.length + 1 - max) + 1 := by
        simp only [List.length_cons]
        omega
      rw [hk, List.drop_succ_cons]
      simp only [Option.some.injEq, Prod.mk.injEq]
      exact ⟨trivial, by omega⟩
    · have hlt : (x :: xs).length + 1 - max = 0 := by
        simp only [List.length_cons] at hge ⊢
        omega
      show (if max ≤ (x :: xs).length then
          evictLoop max (xs.length + 1) (x :: xs).tail
            (if scroll > 0 then scroll - 1 else scroll)
        else some (x :: xs, scroll)) = _
      rw [if_neg hge, hlt]
      simp

/-! ### Claim C10 -/

/-- C10 counterexample.  The claim quantifies over **every** application
state, but with `max_buffer_size = 0` (reachable via
`--buffer-size 0`, since `App::new(cli.buffer_size)` copies the flag)
the eviction loop `while len >= max` never exits — `add_log` on an
unpaused app never returns (modelled as `none`), so it neither
preserves the invariant nor appends the message. -/
theorem C10_counterexample_zero_capacity_diverges :
    (⟨[], 0, 0, true, false⟩ : App).paused = false
    ∧ add_log ⟨[], 0, 0, true, false⟩ ⟨"c", "ns", "p", "ct", "L"⟩ = none := by
  refine ⟨rfl, by decide⟩

/-- C10 (amended).  For every application state with
`max_buffer_size ≥ 1` (every state the TUI reaches unless the user
passes `--buffer-size 0`), `add_log` returns: when paused the incoming
message is discarded outright and the state is unchanged; when not
paused the buffer becomes the old buffer with the oldest
`len + 1 - max` entries evicted followed by the new message, so
`log_buffer.len() ≤ max_buffer_size` is preserved. -/
theorem C10_add_log_bounded :
    ∀ (app : App) (msg : LogMsg), 1 ≤ app.max_buffer_size →
      (app.paused = true → add_log app msg = some app)
      ∧ (app.paused = false →
          ∃ app2, add_log app msg = some app2
            ∧ app2.log_buffer
                = app.log_buffer.drop
                    (app.log_buffer.length + 1 - app.max_buffer_size)
                  ++ [msg]
            ∧ app2.log_buffer.length ≤ app.max_buffer_size
            ∧ app2.paused = app.paused
            ∧ app2.max_buffer_size = app.max_buffer_size) := by
  intro app msg hmax
  constructor
  · intro hp
    unfold add_log
    rw [if_pos hp]
  · intro hp
    have hrun := evictLoop_pos app.max_buffer_size hmax
      app.log_buffer app.scroll_offset
    refine ⟨{ app with
        log_buffer := app.log_buffer.drop
            (app.log_buffer.length + 1 - app.max_buffer_size) ++ [msg],
        scroll_offset := if app.auto_scroll then
            (app.log_buffer.drop
              (app.log_buffer.length + 1 - app.max_buffer_size)
              ++ [msg]).length - 1
          else app.scroll_offset
            - (app.log_buffer.length + 1 - app.max_buffer_size) }, ?_, rfl, ?_, rfl, rfl⟩
    · unfold add_log
      rw [if_neg (by rw [hp]; exact fun h => Bool.noConfusion h), hrun]
    · simp only [List.length_append, List.length_drop, List.length_cons,
        List.length_nil]
      omega

/-- Witness for C10: a concrete two-element buffer at capacity 2; adding
a third message evicts the oldest and keeps the bound. -/
theorem C10_witness :
    1 ≤ (⟨[⟨"c", "n", "p", "t", "A"⟩, ⟨"c", "n", "p", "t", "B"⟩], 2, 1,
        false, false⟩ : App).max_buffer_size
    ∧ ∃ app2,
        add_log ⟨[⟨"c", "n", "p", "t", "A"⟩, ⟨"c", "n", "p", "t", "B"⟩], 2, 1,
          false, false⟩ ⟨"c", "n", "p", "t", "C"⟩ = some app2
        ∧ app2.log_buffer
            = ([⟨"c", "n", "p", "t", "A"⟩,
                ⟨"c", "n", "p", "t", "B"⟩] : List LogMsg).drop
                (([⟨"c", "n", "p", "t", "A"⟩,
                  ⟨"c", "n", "p", "t", "B"⟩] : List LogMsg).length + 1 - 2)
              ++ [⟨"c", "n", "p", "t", "C"⟩]
        ∧ app2.log_buffer.length ≤ 2
        ∧ app2.paused = false
        ∧ app2.max_buffer_size = 2 := by
  refine ⟨by decide, ?_⟩
  exact (C10_add_log_bounded
    ⟨[⟨"c", "n", "p", "t", "A"⟩, ⟨"c", "n", "p", "t", "B"⟩], 2, 1,
      false, false⟩ ⟨"c", "n", "p", "t", "C"⟩ (by decide)).2 rfl

end KubectlTail
